import Mathlib

/-!
Shallow embedding of the bug-tracker frontend client
(`src/frontend/src`): the TypeScript data model from `types.ts`, the
service-layer request construction, the page-level state-update handlers,
and the auth context lifecycle.  Each definition is translated directly
from the corresponding TypeScript source; theorems about the claims of
the specification follow the definitions.
-/

namespace BugTracker

/-! ### Data model (frontend/src/types.ts) -/

/-- `type IssueStatus = 'open' | 'in_progress' | 'resolved' | 'closed'`. -/
inductive IssueStatus where
  | «open»
  | in_progress
  | resolved
  | closed
deriving DecidableEq

/-- `type IssuePriority = 'low' | 'medium' | 'high' | 'critical'`. -/
inductive IssuePriority where
  | low
  | medium
  | high
  | critical
deriving DecidableEq

/-- `interface User` from types.ts. -/
structure User where
  id : Nat
  username : String
  email : String
  first_name : String
  last_name : String
  full_name : String
  is_active : Bool
  date_joined : String
  created_at : String
  updated_at : String
deriving DecidableEq

/-- `interface ProjectMember` from types.ts (`role: 'member' | 'admin'`). -/
inductive MemberRole where
  | member
  | admin
deriving DecidableEq

/-- `interface ProjectMember` from types.ts. -/
structure ProjectMember where
  id : Nat
  user : User
  role : MemberRole
  joined_at : String
deriving DecidableEq

/-- `interface Project` from types.ts; `owner: string | User` is a union,
`members?` is optional. -/
structure Project where
  id : Nat
  name : String
  description : String
  owner : Sum String User
  member_count : Nat
  issue_count : Nat
  created_at : String
  updated_at : String
  members : Option (List ProjectMember) := none
deriving DecidableEq

/-- `interface Issue` from types.ts; `assignee` may be null, and
`project` / `project_name` are optional. -/
structure Issue where
  id : Nat
  title : String
  description : String
  status : IssueStatus
  priority : IssuePriority
  project : Option Project := none
  project_name : Option String := none
  reporter : Sum String User
  assignee : Option (Sum String User)
  comment_count : Nat
  created_at : String
  updated_at : String
deriving DecidableEq

/-- `interface Comment` from types.ts. -/
structure Comment where
  id : Nat
  content : String
  author : Sum String User
  created_at : String
  updated_at : String
deriving DecidableEq

/-- The `pagination` block of the response envelope in types.ts. -/
structure Pagination where
  count : Nat
  next : Option String
  previous : Option String
  page_size : Nat
  total_pages : Nat
  current_page : Nat
deriving DecidableEq

/-- `interface ApiResponse<T>` from types.ts: `pagination?`, `results?`
and `data?` are all optional fields of the envelope. -/
structure ApiResponse (T : Type) where
  success : Bool
  pagination : Option Pagination := none
  results : Option (List T) := none
  data : Option T := none
deriving DecidableEq

/-- `interface ApiError` from types.ts: `details?` is an optional map of
field name to messages. -/
structure ApiError where
  error : Bool
  message : String
  details : Option (List (String × List String)) := none
  status_code : Nat
deriving DecidableEq

/-- `interface LoginCredentials` from types.ts. -/
structure LoginCredentials where
  username : String
  password : String
deriving DecidableEq

/-- `interface RegisterData` from types.ts. -/
structure RegisterData where
  username : String
  email : String
  password : String
  password_confirm : String
deriving DecidableEq

/-- The `tokens` object inside `interface AuthResponse` in types.ts:
an access/refresh pair. -/
structure Tokens where
  access : String
  refresh : String
deriving DecidableEq

/-- `interface AuthResponse` from types.ts. -/
structure AuthResponse where
  user : User
  tokens : Tokens
  message : String
deriving DecidableEq

/-- `interface CreateProjectData` from types.ts. -/
structure CreateProjectData where
  name : String
  description : String
deriving DecidableEq

/-- `interface CreateIssueData` from types.ts; `assignee_id?: number | null`
is an optional field that may carry an explicit null (inner `none`). -/
structure CreateIssueData where
  title : String
  description : String
  priority : IssuePriority
  status : IssueStatus
  assignee_id : Option (Option Nat) := none
deriving DecidableEq

/-- `interface UpdateIssueData` from types.ts: every field is optional
(outer `Option` is presence in the request body), and `assignee_id` may be
an explicit null (`some none`). -/
structure UpdateIssueData where
  title : Option String := none
  description : Option String := none
  priority : Option IssuePriority := none
  status : Option IssueStatus := none
  assignee_id : Option (Option Nat) := none
deriving DecidableEq

/-- `interface CreateCommentData` from types.ts. -/
structure CreateCommentData where
  content : String
deriving DecidableEq

/-! ### Service layer (frontend/src/services) -/

/-- The query parameters built by `issueService.getProjectIssues` in
issue.service.ts: `params.append('page', page.toString())`, then
`if (search) params.append('search', search)`.  The empty string is the
only falsy string in JavaScript, so the `search` parameter is appended
exactly when `search` is non-empty. -/
def getProjectIssuesParams (page : Nat) (search : String) : List (String × String) :=
  [("page", toString page)] ++ (if search = "" then [] else [("search", search)])

/-- The PATCH body sent by `handleStatusChange` in IssueDetail.tsx:
`issueService.updateIssue(..., { status: newStatus })`.  Only the
`status` key is present in the object literal; the remaining optional
fields of `UpdateIssueData` are absent (`none`). -/
def handleStatusChangeBody (newStatus : IssueStatus) : UpdateIssueData :=
  { status := some newStatus }

/-- An `UpdateIssueData` value carrying an explicit `assignee_id: null`,
as permitted by the type in types.ts (`assignee_id?: number | null`). -/
def clearAssigneeUpdate : UpdateIssueData :=
  { assignee_id := some none }

/-- The status options offered by the `<select>` on the issue detail page
(IssueDetail.tsx).  The JSX option list is a constant, so it does not
depend on the issue's current status. -/
def statusSelectOptions (_current : IssueStatus) : List IssueStatus :=
  [IssueStatus.«open», IssueStatus.in_progress, IssueStatus.resolved, IssueStatus.closed]

/-- Whether the client lets the user move an issue from `current` to
`target`: the selector offers `target` among its options (there is no
other check anywhere on the path to the PATCH request). -/
def clientStatusTransitionAllowed (current target : IssueStatus) : Bool :=
  decide (target ∈ statusSelectOptions current)

/-- JavaScript `String.prototype.trim` on the character list of a string:
strip leading and trailing whitespace. -/
def jsTrimList (cs : List Char) : List Char :=
  ((cs.dropWhile Char.isWhitespace).reverse.dropWhile Char.isWhitespace).reverse

/-- `Math.ceil(n / m)` for natural `n` and positive natural `m`
(the rounding-up division used by `loadIssues` in ProjectDetail.tsx with
`m = 20`). -/
def mathCeilDiv (n m : Nat) : Nat :=
  (n + m - 1) / m

/-! ### Page state and handlers (frontend/src/pages) -/

/-- The component state of `Projects` (Projects.tsx). -/
structure ProjectsState where
  projects : List Project
  isLoading : Bool
  showModal : Bool
  formData : CreateProjectData
  isSubmitting : Bool
deriving DecidableEq

/-- `loadProjects` in Projects.tsx (success path):
`setProjects(response.results || [])`, then `setIsLoading(false)`
in the `finally` block. -/
def loadProjectsUpdate (s : ProjectsState) (resp : ApiResponse Project) : ProjectsState :=
  { s with projects := resp.results.getD [], isLoading := false }

/-- `handleSubmit` in Projects.tsx, parameterised by the result of
`projectService.createProject` and by the response of the `loadProjects`
refresh performed on the success path.  On the error path only the toast
fires and the `finally` block resets `isSubmitting`. -/
def projectsHandleSubmit (s : ProjectsState) (result : Except ApiError Project)
    (freshProjects : ApiResponse Project) : ProjectsState :=
  match result with
  | Except.error _ => { s with isSubmitting := false }
  | Except.ok _ =>
      let s1 := { s with showModal := false,
                         formData := { name := "", description := "" } }
      let s2 := loadProjectsUpdate s1 freshProjects
      { s2 with isSubmitting := false }

/-- The component state of `Dashboard` (Dashboard.tsx). -/
structure DashboardState where
  projects : List Project
  myIssues : List Issue
  isLoading : Bool
deriving DecidableEq

/-- `loadData` in Dashboard.tsx (success path):
`setProjects(projectsRes.results || []); setMyIssues(issuesRes.results || [])`,
then `setIsLoading(false)` in the `finally` block. -/
def dashboardLoadData (s : DashboardState) (projectsRes : ApiResponse Project)
    (issuesRes : ApiResponse Issue) : DashboardState :=
  { s with projects := projectsRes.results.getD [],
           myIssues := issuesRes.results.getD [],
           isLoading := false }

/-- The component state of `ProjectDetail` (ProjectDetail.tsx). -/
structure ProjectDetailState where
  project : Option Project
  issues : List Issue
  isLoading : Bool
  showModal : Bool
  formData : CreateIssueData
  isSubmitting : Bool
  currentPage : Nat
  totalPages : Nat
  searchQuery : String
  searchInput : String
deriving DecidableEq

/-- The initial issue form of ProjectDetail.tsx:
`{ title: '', description: '', priority: 'medium', status: 'open' }`. -/
def initialIssueForm : CreateIssueData :=
  { title := "", description := "", priority := IssuePriority.medium,
    status := IssueStatus.«open» }

/-- `loadIssues` in ProjectDetail.tsx (success path):
`setIssues(issuesData.results || [])` and
`setTotalPages(Math.ceil((issuesData.pagination?.count || 0) / 20))`. -/
def loadIssuesUpdate (s : ProjectDetailState) (resp : ApiResponse Issue) : ProjectDetailState :=
  { s with issues := resp.results.getD [],
           totalPages := mathCeilDiv ((resp.pagination.map Pagination.count).getD 0) 20 }

/-- `handleSubmit` in ProjectDetail.tsx, parameterised by the result of
`issueService.createIssue` and by the fresh data fetched by the
`loadIssues()` / `loadProject()` refreshes on the success path.  On the
error path only the toast fires and the `finally` block resets
`isSubmitting`. -/
def projectDetailHandleSubmit (s : ProjectDetailState) (result : Except ApiError Issue)
    (freshIssues : ApiResponse Issue) (freshProject : Option Project) : ProjectDetailState :=
  match result with
  | Except.error _ => { s with isSubmitting := false }
  | Except.ok _ =>
      let s1 := { s with showModal := false, formData := initialIssueForm,
                         currentPage := 1 }
      let s2 := loadIssuesUpdate s1 freshIssues
      { s2 with project := freshProject, isSubmitting := false }

/-- The component state of `IssueDetail` (IssueDetail.tsx). -/
structure IssueDetailState where
  issue : Option Issue
  comments : List Comment
  newComment : String
  isLoading : Bool
  isSubmitting : Bool
deriving DecidableEq

/-- The request body built by `handleSubmitComment` in IssueDetail.tsx,
when one is sent at all: the guard `if (!newComment.trim()) return;`
aborts before `commentService.createComment` when the trimmed input is
empty, and otherwise the body is `{ content: newComment }` (the untrimmed
input). -/
def commentRequest (newComment : String) : Option CreateCommentData :=
  if (jsTrimList newComment.data).isEmpty then none
  else some { content := newComment }

/-- The `disabled` expression of the Post Comment button in
IssueDetail.tsx: `isSubmitting || !newComment.trim()`. -/
def commentSubmitDisabled (isSubmitting : Bool) (newComment : String) : Bool :=
  isSubmitting || (jsTrimList newComment.data).isEmpty

/-- `handleSubmitComment` in IssueDetail.tsx, parameterised by the result
of `createComment` and the fresh data fetched by `loadData()` on the
success path.  When the trimmed input is empty the handler returns before
doing anything; on the error path only the toast fires and the `finally`
block resets `isSubmitting`. -/
def issueDetailHandleSubmitComment (s : IssueDetailState)
    (result : Except ApiError Comment)
    (freshIssue : Option Issue) (freshComments : List Comment) : IssueDetailState :=
  if (jsTrimList s.newComment.data).isEmpty then s
  else
    match result with
    | Except.error _ => { s with isSubmitting := false }
    | Except.ok _ =>
        { s with newComment := "", issue := freshIssue,
                 comments := freshComments, isLoading := false,
                 isSubmitting := false }

/-- `handleStatusChange` in IssueDetail.tsx, parameterised by the result
of `issueService.updateIssue` and the fresh data fetched by `loadData()`
on the success path.  The handler has no `finally` block and performs no
state update at all on the error path. -/
def issueDetailHandleStatusChange (s : IssueDetailState)
    (result : Except ApiError Issue)
    (freshIssue : Option Issue) (freshComments : List Comment) : IssueDetailState :=
  match result with
  | Except.error _ => s
  | Except.ok _ =>
      { s with issue := freshIssue, comments := freshComments,
               isLoading := false }

/-! ### Auth context (frontend/src/context/AuthContext.tsx)

Local storage is a key-value store of strings.  The `"user"` slot holds
`JSON.stringify` of a user object; we represent that serialized form as
the constructor `StoredValue.userJson` (the client only ever writes
`JSON.stringify(user)` to that key, and `JSON.parse` inverts it on
restore), while plain string values such as the access token are
`StoredValue.str`. -/

/-- A value held in local storage: either a plain string or the JSON
serialization of a user. -/
inductive StoredValue where
  | str : String → StoredValue
  | userJson : User → StoredValue
deriving DecidableEq

/-- Local storage as a total map from keys to optionally-present values
(`localStorage.getItem` returns `null` for an absent key). -/
def LocalStorage : Type := String → Option StoredValue

/-- `localStorage.getItem(k)`. -/
def getItem (k : String) (st : LocalStorage) : Option StoredValue :=
  st k

/-- `localStorage.setItem(k, v)`. -/
def setItem (k : String) (v : StoredValue) (st : LocalStorage) : LocalStorage :=
  fun q => if q = k then some v else st q

/-- `localStorage.removeItem(k)`. -/
def removeItem (k : String) (st : LocalStorage) : LocalStorage :=
  fun q => if q = k then none else st q

/-- The empty local storage. -/
def emptyStorage : LocalStorage :=
  fun _ => none

/-- The state held by `AuthProvider` in AuthContext.tsx:
`user`, `token` and `isLoading`. -/
structure AuthState where
  user : Option User
  token : Option String
  isLoading : Bool

/-- The initial provider state: `useState<User | null>(null)`,
`useState<string | null>(null)`, `useState(true)`. -/
def initialAuthState : AuthState :=
  { user := none, token := none, isLoading := true }

/-- `isAuthenticated: !!token` in the provider value of AuthContext.tsx:
double negation of JavaScript truthiness, where both `null` and the
empty string are falsy. -/
def isAuthenticated (s : AuthState) : Bool :=
  match s.token with
  | none => false
  | some t => !(t == "")

/-- The mount effect of `AuthProvider`: read `access_token` and `user`
from local storage; `if (storedToken && storedUser)` restore both
(JavaScript truthiness: the empty string is falsy, so an empty stored
token is not restored); `JSON.parse(storedUser)` recovers the user from
its serialized form; finally `setIsLoading(false)` in every case. -/
def initOnLoad (st : LocalStorage) (s : AuthState) : AuthState :=
  match getItem "access_token" st, getItem "user" st with
  | some (StoredValue.str t), some (StoredValue.userJson u) =>
      if t = "" then { s with isLoading := false }
      else { s with token := some t, user := some u, isLoading := false }
  | _, _ => { s with isLoading := false }

/-- The success path of `login` in AuthContext.tsx: set `user` and
`token` in state and write both `access_token` and the serialized user
to local storage. -/
def loginOk (resp : AuthResponse) (s : AuthState) (st : LocalStorage) :
    AuthState × LocalStorage :=
  ({ s with user := some resp.user, token := some resp.tokens.access },
   setItem "user" (StoredValue.userJson resp.user)
     (setItem "access_token" (StoredValue.str resp.tokens.access) st))

/-- The error path of `login`: only a toast fires and the error is
rethrown — neither state nor storage changes. -/
def loginErr (s : AuthState) (st : LocalStorage) : AuthState × LocalStorage :=
  (s, st)

/-- The success path of `register` in AuthContext.tsx (same body as the
login success path). -/
def registerOk (resp : AuthResponse) (s : AuthState) (st : LocalStorage) :
    AuthState × LocalStorage :=
  ({ s with user := some resp.user, token := some resp.tokens.access },
   setItem "user" (StoredValue.userJson resp.user)
     (setItem "access_token" (StoredValue.str resp.tokens.access) st))

/-- The error path of `register`: toasts only, no state or storage
change. -/
def registerErr (s : AuthState) (st : LocalStorage) : AuthState × LocalStorage :=
  (s, st)

/-- `logout` in AuthContext.tsx: `authService.logout().catch(() => {})`
is fired and its outcome ignored (`serverLogoutFailed` is unused), then
both state fields are cleared and both keys removed from storage. -/
def logout (_serverLogoutFailed : Bool) (s : AuthState) (st : LocalStorage) :
    AuthState × LocalStorage :=
  ({ s with user := none, token := none },
   removeItem "user" (removeItem "access_token" st))

/-- The events that drive the auth provider's state. -/
inductive AuthEvent where
  | load (st : LocalStorage)
  | loginSuccess (resp : AuthResponse)
  | loginFailure
  | registerSuccess (resp : AuthResponse)
  | registerFailure
  | logoutEvent (serverLogoutFailed : Bool)

/-- One step of the auth provider's state, by event (the storage
component of the operations is dropped: only the in-memory state is
tracked here). -/
def authStep (s : AuthState) : AuthEvent → AuthState
  | AuthEvent.load st => initOnLoad st s
  | AuthEvent.loginSuccess resp => (loginOk resp s emptyStorage).1
  | AuthEvent.loginFailure => (loginErr s emptyStorage).1
  | AuthEvent.registerSuccess resp => (registerOk resp s emptyStorage).1
  | AuthEvent.registerFailure => (registerErr s emptyStorage).1
  | AuthEvent.logoutEvent b => (logout b s emptyStorage).1

/-- The auth states reachable from the initial provider state through
any sequence of events. -/
inductive ReachableAuth : AuthState → Prop
  | init : ReachableAuth initialAuthState
  | step (s : AuthState) (e : AuthEvent) :
      ReachableAuth s → ReachableAuth (authStep s e)

/-- A sample user value, used for concrete witnesses. -/
def sampleUser : User :=
  { id := 1, username := "alice", email := "alice@example.com",
    first_name := "Alice", last_name := "A", full_name := "Alice A",
    is_active := true, date_joined := "2024-01-01",
    created_at := "2024-01-01", updated_at := "2024-01-01" }

/-- A sample auth response, used for concrete witnesses. -/
def sampleAuthResponse : AuthResponse :=
  { user := sampleUser,
    tokens := { access := "acc-token", refresh := "ref-token" },
    message := "ok" }

/-! ### Concrete sample values for witnesses and counterexamples -/

/-- A sample project value. -/
def sampleProject : Project :=
  { id := 7, name := "Alpha", description := "demo",
    owner := Sum.inl "alice", member_count := 1, issue_count := 0,
    created_at := "2024-01-01", updated_at := "2024-01-01" }

/-- A sample issue value. -/
def sampleIssue : Issue :=
  { id := 3, title := "Crash on save", description := "boom",
    status := IssueStatus.«open», priority := IssuePriority.high,
    reporter := Sum.inl "bob", assignee := none, comment_count := 0,
    created_at := "2024-01-02", updated_at := "2024-01-02" }

/-- A sample comment value. -/
def sampleComment : Comment :=
  { id := 11, content := "looks bad", author := Sum.inl "bob",
    created_at := "2024-01-03", updated_at := "2024-01-03" }

/-- A sample API error value. -/
def sampleApiError : ApiError :=
  { error := true, message := "Validation failed", status_code := 400 }

/-- An issues-list response whose pagination block reports 45 issues. -/
def respCount45 : ApiResponse Issue :=
  { success := true,
    pagination := some { count := 45, next := none, previous := none,
                         page_size := 20, total_pages := 3, current_page := 1 },
    results := some [] }

/-- An issues-list response with every optional envelope field absent. -/
def emptyIssuesResp : ApiResponse Issue :=
  { success := true }

/-- A projects-list response with every optional envelope field absent. -/
def emptyProjectsResp : ApiResponse Project :=
  { success := true }

/-- The initial component state of Projects.tsx. -/
def projectsState0 : ProjectsState :=
  { projects := [], isLoading := true, showModal := false,
    formData := { name := "", description := "" }, isSubmitting := false }

/-- The initial component state of Dashboard.tsx. -/
def dashboardState0 : DashboardState :=
  { projects := [], myIssues := [], isLoading := true }

/-- The initial component state of ProjectDetail.tsx. -/
def pdState0 : ProjectDetailState :=
  { project := none, issues := [], isLoading := true, showModal := false,
    formData := initialIssueForm, isSubmitting := false, currentPage := 1,
    totalPages := 1, searchQuery := "", searchInput := "" }

/-- The initial component state of IssueDetail.tsx, with a draft comment
already typed into the box. -/
def idState0 : IssueDetailState :=
  { issue := none, comments := [], newComment := "draft text",
    isLoading := true, isSubmitting := false }

/-- A local storage holding an empty access token together with a stored
user: both keys exist, but the token is falsy in JavaScript. -/
def c7Storage : LocalStorage :=
  setItem "user" (StoredValue.userJson sampleUser)
    (setItem "access_token" (StoredValue.str "") emptyStorage)

/-- A local storage holding a non-empty access token and a stored user. -/
def c7GoodStorage : LocalStorage :=
  setItem "user" (StoredValue.userJson sampleUser)
    (setItem "access_token" (StoredValue.str "acc-token") emptyStorage)

/-- An auth response with refresh token "refA". -/
def loginRespA : AuthResponse :=
  { user := sampleUser, tokens := { access := "acc", refresh := "refA" },
    message := "ok" }

/-- The same auth response as `loginRespA` except for the refresh
token. -/
def loginRespB : AuthResponse :=
  { user := sampleUser, tokens := { access := "acc", refresh := "refB" },
    message := "ok" }

/-- An auth response whose access token is the empty string. -/
def emptyTokenAuthResponse : AuthResponse :=
  { user := sampleUser, tokens := { access := "", refresh := "ref" },
    message := "ok" }

/-- The provider state reached by a successful login whose response
carries an empty access token. -/
def emptyTokenState : AuthState :=
  authStep initialAuthState (AuthEvent.loginSuccess emptyTokenAuthResponse)

/-! ### Helper lemmas -/

/-- `Math.ceil(n / 20)` on naturals agrees with the mathematical ceiling
of the rational `n / 20`. -/
theorem mathCeilDiv_twenty_eq_ceil (n : Nat) :
    mathCeilDiv n 20 = Nat.ceil ((n : ℚ) / 20) := by
  rcases Nat.eq_zero_or_pos n with h0 | hpos
  · subst h0
    simp [mathCeilDiv]
  · have htdef : mathCeilDiv n 20 = (n + 19) / 20 := rfl
    set t := mathCeilDiv n 20 with ht
    have ht1 : t ≠ 0 := by omega
    have hub : (t - 1) * 20 < n := by omega
    have hlb : n ≤ t * 20 := by omega
    symm
    rw [Nat.ceil_eq_iff ht1]
    constructor
    · rw [lt_div_iff₀ (by norm_num : (0 : ℚ) < 20)]
      exact_mod_cast hub
    · rw [div_le_iff₀ (by norm_num : (0 : ℚ) < 20)]
      exact_mod_cast hlb

/-- A string whose JavaScript trim is non-empty contains at least one
non-whitespace character. -/
theorem jsTrimList_ne_nil (cs : List Char) (h : jsTrimList cs ≠ []) :
    ∃ c ∈ cs, c.isWhitespace = false := by
  by_contra haw
  push_neg at haw
  apply h
  have h1 : cs.dropWhile Char.isWhitespace = [] := by
    rw [List.dropWhile_eq_nil_iff]
    intro x hx
    have := haw x hx
    simpa using this
  simp [jsTrimList, h1]

/-! ### Claim theorems -/

/-- C1: for every issues-list response whose pagination block reports
total count `N`, `loadIssues` in ProjectDetail.tsx sets `totalPages` to
the ceiling of `N / 20`; when the pagination block is absent it uses
count 0, giving 0 pages. -/
theorem c1_total_pages (s s2 : ProjectDetailState) (resp resp2 : ApiResponse Issue)
    (p : Pagination)
    (hp : resp.pagination = some p) (hnone : resp2.pagination = none) :
    (loadIssuesUpdate s resp).totalPages = Nat.ceil ((p.count : ℚ) / 20) ∧
    (loadIssuesUpdate s2 resp2).totalPages = 0 := by
  constructor
  · simp [loadIssuesUpdate, hp, mathCeilDiv_twenty_eq_ceil]
  · simp [loadIssuesUpdate, hnone, mathCeilDiv]

/-- Witness for C1: a response reporting 45 issues yields
`ceil (45 / 20)` pages, and a response without a pagination block yields
0 pages. -/
theorem c1_total_pages_witness :
    (loadIssuesUpdate pdState0 respCount45).totalPages =
      Nat.ceil (((respCount45.pagination.map Pagination.count).getD 0 : ℚ) / 20) ∧
    (loadIssuesUpdate pdState0 emptyIssuesResp).totalPages = 0 :=
  c1_total_pages pdState0 pdState0 respCount45 emptyIssuesResp _ rfl rfl

/-- C2: `getProjectIssues` always carries a `page` parameter; with an
empty search string no `search` parameter appears in the query, and with
a non-empty search string the `search` parameter equals that string
verbatim. -/
theorem c2_search_parameter (page : Nat) (search : String) (hs : search ≠ "") :
    (∀ kv ∈ getProjectIssuesParams page "", kv.1 ≠ "search") ∧
    ("page", toString page) ∈ getProjectIssuesParams page "" ∧
    ("page", toString page) ∈ getProjectIssuesParams page search ∧
    ("search", search) ∈ getProjectIssuesParams page search ∧
    (∀ kv ∈ getProjectIssuesParams page search, kv.1 = "search" → kv.2 = search) := by
  refine ⟨?_, ?_, ?_, ?_, ?_⟩
  · intro kv hkv
    simp [getProjectIssuesParams] at hkv
    simp [hkv]
  · simp [getProjectIssuesParams]
  · simp [getProjectIssuesParams, hs]
  · simp [getProjectIssuesParams, hs]
  · intro kv hkv hfst
    simp [getProjectIssuesParams, hs] at hkv
    rcases hkv with h | h
    · subst h
      simp at hfst
    · subst h
      rfl

/-- Witness for C2 at page 2 with the search string "crash". -/
theorem c2_search_parameter_witness :
    (∀ kv ∈ getProjectIssuesParams 2 "", kv.1 ≠ "search") ∧
    ("page", toString 2) ∈ getProjectIssuesParams 2 "" ∧
    ("page", toString 2) ∈ getProjectIssuesParams 2 "crash" ∧
    ("search", "crash") ∈ getProjectIssuesParams 2 "crash" ∧
    (∀ kv ∈ getProjectIssuesParams 2 "crash", kv.1 = "search" → kv.2 = "crash") :=
  c2_search_parameter 2 "crash" (by decide)

/-- C3: on the error path of every mutation handler (createProject in
Projects.tsx, createIssue in ProjectDetail.tsx, createComment and the
status-change update in IssueDetail.tsx) the previously rendered state —
lists, open modal, form fields and current page — is unchanged, and the
lists are replaced by freshly fetched data only on the success path. -/
theorem c3_error_path_preserves_state
    (sp : ProjectsState) (spd : ProjectDetailState) (sid : IssueDetailState)
    (e1 e2 e3 e4 : ApiError)
    (fp : ApiResponse Project) (fi : ApiResponse Issue) (fpr freshIssue : Option Project × Option Issue)
    (fCom : List Comment) (okProject : Project) (okIssue okIssue2 : Issue) (okComment : Comment)
    (sid2 : IssueDetailState)
    (hguard : (jsTrimList sid2.newComment.data).isEmpty = false) :
    ((projectsHandleSubmit sp (Except.error e1) fp).projects = sp.projects ∧
     (projectsHandleSubmit sp (Except.error e1) fp).showModal = sp.showModal ∧
     (projectsHandleSubmit sp (Except.error e1) fp).formData = sp.formData) ∧
    ((projectDetailHandleSubmit spd (Except.error e2) fi fpr.1).issues = spd.issues ∧
     (projectDetailHandleSubmit spd (Except.error e2) fi fpr.1).project = spd.project ∧
     (projectDetailHandleSubmit spd (Except.error e2) fi fpr.1).showModal = spd.showModal ∧
     (projectDetailHandleSubmit spd (Except.error e2) fi fpr.1).formData = spd.formData ∧
     (projectDetailHandleSubmit spd (Except.error e2) fi fpr.1).currentPage = spd.currentPage) ∧
    ((issueDetailHandleSubmitComment sid (Except.error e3) freshIssue.2 fCom).comments = sid.comments ∧
     (issueDetailHandleSubmitComment sid (Except.error e3) freshIssue.2 fCom).issue = sid.issue ∧
     (issueDetailHandleSubmitComment sid (Except.error e3) freshIssue.2 fCom).newComment = sid.newComment) ∧
    (issueDetailHandleStatusChange sid (Except.error e4) freshIssue.2 fCom = sid) ∧
    ((projectsHandleSubmit sp (Except.ok okProject) fp).projects = fp.results.getD [] ∧
     (projectDetailHandleSubmit spd (Except.ok okIssue) fi fpr.1).issues = fi.results.getD [] ∧
     (issueDetailHandleSubmitComment sid2 (Except.ok okComment) freshIssue.2 fCom).comments = fCom ∧
     (issueDetailHandleStatusChange sid (Except.ok okIssue2) freshIssue.2 fCom).comments = fCom) := by
  refine ⟨⟨rfl, rfl, rfl⟩, ⟨rfl, rfl, rfl, rfl, rfl⟩, ?_, rfl, ?_⟩
  · unfold issueDetailHandleSubmitComment
    by_cases hg : (jsTrimList sid.newComment.data).isEmpty
    · simp [hg]
    · simp [hg]
  · refine ⟨rfl, rfl, ?_, rfl⟩
    simp [issueDetailHandleSubmitComment, hguard]

/-- Witness for C3 with concrete states, errors and fresh responses;
the draft comment in `idState0` has a non-empty trim. -/
theorem c3_error_path_preserves_state_witness :
    ((projectsHandleSubmit projectsState0 (Except.error sampleApiError) emptyProjectsResp).projects = projectsState0.projects ∧
     (projectsHandleSubmit projectsState0 (Except.error sampleApiError) emptyProjectsResp).showModal = projectsState0.showModal ∧
     (projectsHandleSubmit projectsState0 (Except.error sampleApiError) emptyProjectsResp).formData = projectsState0.formData) ∧
    ((projectDetailHandleSubmit pdState0 (Except.error sampleApiError) respCount45 (some sampleProject, some sampleIssue).1).issues = pdState0.issues ∧
     (projectDetailHandleSubmit pdState0 (Except.error sampleApiError) respCount45 (some sampleProject, some sampleIssue).1).project = pdState0.project ∧
     (projectDetailHandleSubmit pdState0 (Except.error sampleApiError) respCount45 (some sampleProject, some sampleIssue).1).showModal = pdState0.showModal ∧
     (projectDetailHandleSubmit pdState0 (Except.error sampleApiError) respCount45 (some sampleProject, some sampleIssue).1).formData = pdState0.formData ∧
     (projectDetailHandleSubmit pdState0 (Except.error sampleApiError) respCount45 (some sampleProject, some sampleIssue).1).currentPage = pdState0.currentPage) ∧
    ((issueDetailHandleSubmitComment idState0 (Except.error sampleApiError) (some sampleProject, some sampleIssue).2 [sampleComment]).comments = idState0.comments ∧
     (issueDetailHandleSubmitComment idState0 (Except.error sampleApiError) (some sampleProject, some sampleIssue).2 [sampleComment]).issue = idState0.issue ∧
     (issueDetailHandleSubmitComment idState0 (Except.error sampleApiError) (some sampleProject, some sampleIssue).2 [sampleComment]).newComment = idState0.newComment) ∧
    (issueDetailHandleStatusChange idState0 (Except.error sampleApiError) (some sampleProject, some sampleIssue).2 [sampleComment] = idState0) ∧
    ((projectsHandleSubmit projectsState0 (Except.ok sampleProject) emptyProjectsResp).projects = emptyProjectsResp.results.getD [] ∧
     (projectDetailHandleSubmit pdState0 (Except.ok sampleIssue) respCount45 (some sampleProject, some sampleIssue).1).issues = respCount45.results.getD [] ∧
     (issueDetailHandleSubmitComment idState0 (Except.ok sampleComment) (some sampleProject, some sampleIssue).2 [sampleComment]).comments = [sampleComment] ∧
     (issueDetailHandleStatusChange idState0 (Except.ok sampleIssue) (some sampleProject, some sampleIssue).2 [sampleComment]).comments = [sampleComment]) :=
  c3_error_path_preserves_state projectsState0 pdState0 idState0
    sampleApiError sampleApiError sampleApiError sampleApiError
    emptyProjectsResp respCount45 (some sampleProject, some sampleIssue)
    (some sampleProject, some sampleIssue) [sampleComment]
    sampleProject sampleIssue sampleIssue sampleComment idState0 (by decide)

/-- C4: the status selector on the issue detail page offers all four
statuses whatever the current one is, and the PATCH issued by
`handleStatusChange` carries exactly the selected status, so the client
permits every direct transition between the four statuses. -/
theorem c4_any_status_transition :
    ∀ s t : IssueStatus,
      clientStatusTransitionAllowed s t = true ∧
      t ∈ statusSelectOptions s ∧
      statusSelectOptions s = statusSelectOptions t ∧
      (handleStatusChangeBody t).status = some t := by
  intro s t
  cases s <;> cases t <;> exact ⟨by decide, by decide, by decide, rfl⟩

/-- C5: the status-change request body contains exactly the `status`
field — title, description, priority and assignee_id are all absent —
and the `UpdateIssueData` type admits an explicit `assignee_id: null`
(`some none`). -/
theorem c5_status_change_body (t : IssueStatus) :
    (handleStatusChangeBody t).status = some t ∧
    (handleStatusChangeBody t).title = none ∧
    (handleStatusChangeBody t).description = none ∧
    (handleStatusChangeBody t).priority = none ∧
    (handleStatusChangeBody t).assignee_id = none ∧
    clearAssigneeUpdate.assignee_id = some none :=
  ⟨rfl, rfl, rfl, rfl, rfl, rfl⟩

/-- C6: when the draft comment trims to the empty string the handler
sends nothing and the submit button is disabled, and every comment
request that is sent carries content with at least one non-whitespace
character. -/
theorem c6_no_empty_comment (s1 s2 : String) (d : CreateCommentData) (b : Bool)
    (h1 : (jsTrimList s1.data).isEmpty = true)
    (h2 : commentRequest s2 = some d) :
    commentRequest s1 = none ∧
    commentSubmitDisabled b s1 = true ∧
    ∃ c ∈ d.content.data, c.isWhitespace = false := by
  refine ⟨?_, ?_, ?_⟩
  · simp [commentRequest, h1]
  · simp [commentSubmitDisabled, h1]
  · unfold commentRequest at h2
    by_cases hg : (jsTrimList s2.data).isEmpty
    · simp [hg] at h2
    · rw [if_neg hg] at h2
      have hd : d.content = s2 := by
        cases h2
        rfl
      rw [hd]
      exact jsTrimList_ne_nil s2.data (by simpa [List.isEmpty_iff] using hg)

/-- Witness for C6: a whitespace-only draft is not sent and disables the
button; the sent draft "hi" contains a non-whitespace character. -/
theorem c6_no_empty_comment_witness :
    commentRequest "  " = none ∧
    commentSubmitDisabled false "  " = true ∧
    ∃ c ∈ (CreateCommentData.mk "hi").content.data, c.isWhitespace = false :=
  c6_no_empty_comment "  " "hi" (CreateCommentData.mk "hi") false (by decide) (by decide)

/-- Helper for C7: starting from a state with no token, the mount effect
restores a session exactly when local storage holds a serialized user and
a non-empty access token (JavaScript truthiness of `storedToken`). -/
theorem initOnLoad_restore_iff (st : LocalStorage) (s : AuthState)
    (hs : s.token = none) :
    (initOnLoad st s).token.isSome = true ↔
      ∃ t u, t ≠ "" ∧ getItem "access_token" st = some (StoredValue.str t) ∧
        getItem "user" st = some (StoredValue.userJson u) := by
  unfold initOnLoad
  rcases hA : getItem "access_token" st with _ | vA
  · simp [hA, hs]
  · rcases vA with tA | uA
    · rcases hU : getItem "user" st with _ | vU
      · simp [hA, hU, hs]
      · rcases vU with tU | uU
        · simp [hA, hU, hs]
        · by_cases hte : tA = ""
          · subst hte
            simp [hA, hU, hs]
          · simp [hA, hU, hte]
    · simp [hA, hs]

/-- C7 counterexample: a storage in which both `access_token` and `user`
exist, yet the mount effect restores nothing, because the stored access
token is the empty string and is therefore falsy in the JavaScript guard
`if (storedToken && storedUser)`. -/
theorem c7_empty_token_counterexample :
    (getItem "access_token" c7Storage).isSome = true ∧
    (getItem "user" c7Storage).isSome = true ∧
    (initOnLoad c7Storage initialAuthState).token = none ∧
    (initOnLoad c7Storage initialAuthState).user = none := by
  refine ⟨by decide, by decide, by decide, by decide⟩

/-- C7 (amended): on load the session is restored exactly when both keys
exist with a serialized user and a non-empty (truthy) access token, and
then it restores exactly the stored values; on successful login or
register both token and user are set in state and written to local
storage; on logout both are cleared from state and storage
unconditionally, whether or not the server logout request failed. -/
theorem c7_session_lifecycle (st st2 stAny : LocalStorage) (sAny : AuthState)
    (t : String) (u : User) (resp : AuthResponse) (b : Bool)
    (ht : getItem "access_token" st = some (StoredValue.str t))
    (htne : t ≠ "")
    (hu : getItem "user" st = some (StoredValue.userJson u)) :
    initOnLoad st initialAuthState =
      { user := some u, token := some t, isLoading := false } ∧
    ((initOnLoad st2 initialAuthState).token.isSome = true ↔
      ∃ t2 u2, t2 ≠ "" ∧ getItem "access_token" st2 = some (StoredValue.str t2) ∧
        getItem "user" st2 = some (StoredValue.userJson u2)) ∧
    ((loginOk resp sAny stAny).1.token = some resp.tokens.access ∧
     (loginOk resp sAny stAny).1.user = some resp.user ∧
     getItem "access_token" (loginOk resp sAny stAny).2 =
       some (StoredValue.str resp.tokens.access) ∧
     getItem "user" (loginOk resp sAny stAny).2 =
       some (StoredValue.userJson resp.user)) ∧
    ((registerOk resp sAny stAny).1.token = some resp.tokens.access ∧
     (registerOk resp sAny stAny).1.user = some resp.user ∧
     getItem "access_token" (registerOk resp sAny stAny).2 =
       some (StoredValue.str resp.tokens.access) ∧
     getItem "user" (registerOk resp sAny stAny).2 =
       some (StoredValue.userJson resp.user)) ∧
    ((logout b sAny stAny).1.token = none ∧
     (logout b sAny stAny).1.user = none ∧
     getItem "access_token" (logout b sAny stAny).2 = none ∧
     getItem "user" (logout b sAny stAny).2 = none) := by
  refine ⟨?_, initOnLoad_restore_iff st2 initialAuthState rfl, ⟨rfl, rfl, ?_, ?_⟩,
    ⟨rfl, rfl, ?_, ?_⟩, ⟨rfl, rfl, ?_, ?_⟩⟩
  · simp only [initOnLoad, ht, hu]
    rw [if_neg htne]
  · simp [loginOk, getItem, setItem]
  · simp [loginOk, getItem, setItem]
  · simp [registerOk, getItem, setItem]
  · simp [registerOk, getItem, setItem]
  · simp [logout, getItem, removeItem]
  · simp [logout, getItem, removeItem]

/-- Witness for C7 (amended) on a storage holding the token "acc-token"
and the sample user, with a failing server logout. -/
theorem c7_session_lifecycle_witness :
    initOnLoad c7GoodStorage initialAuthState =
      { user := some sampleUser, token := some "acc-token", isLoading := false } ∧
    ((initOnLoad c7Storage initialAuthState).token.isSome = true ↔
      ∃ t2 u2, t2 ≠ "" ∧ getItem "access_token" c7Storage = some (StoredValue.str t2) ∧
        getItem "user" c7Storage = some (StoredValue.userJson u2)) ∧
    ((loginOk sampleAuthResponse initialAuthState emptyStorage).1.token =
       some sampleAuthResponse.tokens.access ∧
     (loginOk sampleAuthResponse initialAuthState emptyStorage).1.user =
       some sampleAuthResponse.user ∧
     getItem "access_token" (loginOk sampleAuthResponse initialAuthState emptyStorage).2 =
       some (StoredValue.str sampleAuthResponse.tokens.access) ∧
     getItem "user" (loginOk sampleAuthResponse initialAuthState emptyStorage).2 =
       some (StoredValue.userJson sampleAuthResponse.user)) ∧
    ((registerOk sampleAuthResponse initialAuthState emptyStorage).1.token =
       some sampleAuthResponse.tokens.access ∧
     (registerOk sampleAuthResponse initialAuthState emptyStorage).1.user =
       some sampleAuthResponse.user ∧
     getItem "access_token" (registerOk sampleAuthResponse initialAuthState emptyStorage).2 =
       some (StoredValue.str sampleAuthResponse.tokens.access) ∧
     getItem "user" (registerOk sampleAuthResponse initialAuthState emptyStorage).2 =
       some (StoredValue.userJson sampleAuthResponse.user)) ∧
    ((logout true initialAuthState c7GoodStorage).1.token = none ∧
     (logout true initialAuthState c7GoodStorage).1.user = none ∧
     getItem "access_token" (logout true initialAuthState c7GoodStorage).2 = none ∧
     getItem "user" (logout true initialAuthState c7GoodStorage).2 = none) :=
  c7_session_lifecycle c7GoodStorage c7Storage c7GoodStorage initialAuthState
    "acc-token" sampleUser sampleAuthResponse true (by decide) (by decide) (by decide)

/-- C8: neither login nor register stores the refresh token anywhere —
their results are unchanged when only the refresh token of the response
differs — the storage writes touch only the `access_token` and `user`
keys, the state token is the access token, and the mount effect reads
only those two keys, so a reloaded session carries no refresh token. -/
theorem c8_refresh_token_never_stored
    (u : User) (a r1 r2 msg : String) (s s0 : AuthState) (st st1 st2 : LocalStorage)
    (k : String)
    (hk1 : k ≠ "access_token") (hk2 : k ≠ "user")
    (hacc : getItem "access_token" st1 = getItem "access_token" st2)
    (huser : getItem "user" st1 = getItem "user" st2) :
    loginOk { user := u, tokens := { access := a, refresh := r1 }, message := msg } s st =
      loginOk { user := u, tokens := { access := a, refresh := r2 }, message := msg } s st ∧
    registerOk { user := u, tokens := { access := a, refresh := r1 }, message := msg } s st =
      registerOk { user := u, tokens := { access := a, refresh := r2 }, message := msg } s st ∧
    getItem k (loginOk { user := u, tokens := { access := a, refresh := r1 }, message := msg } s st).2 =
      getItem k st ∧
    (loginOk { user := u, tokens := { access := a, refresh := r1 }, message := msg } s st).1.token =
      some a ∧
    initOnLoad st1 s0 = initOnLoad st2 s0 := by
  refine ⟨rfl, rfl, ?_, rfl, ?_⟩
  · simp [loginOk, getItem, setItem, hk1, hk2]
  · unfold initOnLoad
    rw [hacc, huser]

/-- Witness for C8 with two responses differing only in the refresh
token, the extraneous key "theme", and two equal storages. -/
theorem c8_refresh_token_never_stored_witness :
    loginOk loginRespA initialAuthState emptyStorage =
      loginOk loginRespB initialAuthState emptyStorage ∧
    registerOk loginRespA initialAuthState emptyStorage =
      registerOk loginRespB initialAuthState emptyStorage ∧
    getItem "theme" (loginOk loginRespA initialAuthState emptyStorage).2 =
      getItem "theme" emptyStorage ∧
    (loginOk loginRespA initialAuthState emptyStorage).1.token = some "acc" ∧
    initOnLoad c7GoodStorage initialAuthState = initOnLoad c7GoodStorage initialAuthState :=
  c8_refresh_token_never_stored sampleUser "acc" "refA" "refB" "ok"
    initialAuthState initialAuthState emptyStorage c7GoodStorage c7GoodStorage
    "theme" (by decide) (by decide) rfl rfl

/-- Helper for C9: along every reachable auth state, the token and the
user are present or absent together. -/
theorem reachable_token_iff_user (s : AuthState) (h : ReachableAuth s) :
    s.token.isSome = s.user.isSome := by
  induction h with
  | init => rfl
  | step s e hr ih =>
      cases e with
      | load st =>
          show (initOnLoad st s).token.isSome = (initOnLoad st s).user.isSome
          unfold initOnLoad
          split
          · split
            · exact ih
            · rfl
          · exact ih
      | loginSuccess resp => rfl
      | loginFailure => exact ih
      | registerSuccess resp => rfl
      | registerFailure => exact ih
      | logoutEvent b => rfl

/-- C9 counterexample: the state reached by a successful login whose
response carries an empty access token is reachable and holds a non-null
token, yet `isAuthenticated` (`!!token`, with the empty string falsy in
JavaScript) is false there — so `isAuthenticated` is not true exactly
when the token is non-null. -/
theorem c9_empty_token_counterexample :
    ReachableAuth emptyTokenState ∧
    emptyTokenState.token = some "" ∧
    emptyTokenState.token ≠ none ∧
    isAuthenticated emptyTokenState = false :=
  ⟨ReachableAuth.step initialAuthState (AuthEvent.loginSuccess emptyTokenAuthResponse)
      ReachableAuth.init,
   rfl, by decide, rfl⟩

/-- C9 (amended): in every state reachable through the auth context's
operations, `isAuthenticated` is true exactly when the token is non-null
and non-empty (truthy), and the token and the user are null or non-null
together: every operation sets or clears both fields in the same step. -/
theorem c9_auth_invariant (s : AuthState) (h : ReachableAuth s) :
    (isAuthenticated s = true ↔ (s.token ≠ none ∧ s.token ≠ some "")) ∧
    (s.token = none ↔ s.user = none) := by
  have key := reachable_token_iff_user s h
  constructor
  · cases htok : s.token with
    | none => simp [isAuthenticated, htok]
    | some t => simp [isAuthenticated, htok]
  · rw [← Option.not_isSome_iff_eq_none, ← Option.not_isSome_iff_eq_none, key]

/-- Witness for C9 (amended) at the state reached by a successful login
from the initial state. -/
theorem c9_auth_invariant_witness :
    (isAuthenticated (authStep initialAuthState (AuthEvent.loginSuccess sampleAuthResponse)) = true ↔
      ((authStep initialAuthState (AuthEvent.loginSuccess sampleAuthResponse)).token ≠ none ∧
       (authStep initialAuthState (AuthEvent.loginSuccess sampleAuthResponse)).token ≠ some "")) ∧
    ((authStep initialAuthState (AuthEvent.loginSuccess sampleAuthResponse)).token = none ↔
      (authStep initialAuthState (AuthEvent.loginSuccess sampleAuthResponse)).user = none) :=
  c9_auth_invariant (authStep initialAuthState (AuthEvent.loginSuccess sampleAuthResponse))
    (ReachableAuth.step initialAuthState (AuthEvent.loginSuccess sampleAuthResponse)
      ReachableAuth.init)

/-- C10: when a list response lacks the `results` array, Projects,
Dashboard and ProjectDetail substitute the empty list, and when the
pagination block is absent ProjectDetail substitutes count 0 (hence 0
pages). -/
theorem c10_absent_envelope_defaults
    (sp : ProjectsState) (sd : DashboardState) (spd spd2 : ProjectDetailState)
    (rp rd1 : ApiResponse Project) (rd2 ri ri2 : ApiResponse Issue)
    (h1 : rp.results = none) (h2 : rd1.results = none) (h3 : rd2.results = none)
    (h4 : ri.results = none) (h5 : ri2.pagination = none) :
    (loadProjectsUpdate sp rp).projects = [] ∧
    (dashboardLoadData sd rd1 rd2).projects = [] ∧
    (dashboardLoadData sd rd1 rd2).myIssues = [] ∧
    (loadIssuesUpdate spd ri).issues = [] ∧
    (loadIssuesUpdate spd2 ri2).totalPages = 0 := by
  refine ⟨?_, ?_, ?_, ?_, ?_⟩ <;>
    simp [loadProjectsUpdate, dashboardLoadData, loadIssuesUpdate, mathCeilDiv,
      h1, h2, h3, h4, h5]

/-- Witness for C10 on responses with all optional envelope fields
absent. -/
theorem c10_absent_envelope_defaults_witness :
    (loadProjectsUpdate projectsState0 emptyProjectsResp).projects = [] ∧
    (dashboardLoadData dashboardState0 emptyProjectsResp emptyIssuesResp).projects = [] ∧
    (dashboardLoadData dashboardState0 emptyProjectsResp emptyIssuesResp).myIssues = [] ∧
    (loadIssuesUpdate pdState0 emptyIssuesResp).issues = [] ∧
    (loadIssuesUpdate pdState0 emptyIssuesResp).totalPages = 0 :=
  c10_absent_envelope_defaults projectsState0 dashboardState0 pdState0 pdState0
    emptyProjectsResp emptyProjectsResp emptyIssuesResp emptyIssuesResp emptyIssuesResp
    rfl rfl rfl rfl rfl

end BugTracker
